import Mathlib

/-!
Shallow embedding of the cpspflow pipeline's geometric core
(`src/pipeline/utils.py`, `src/pipeline/analysis.py`,
`src/pipeline/mni_registration.py`).

Voxel values are embedded as rationals (the code computes with machine
floats; division and ordering are modelled exactly over `ℚ`).  Images
are three-dimensional, as everywhere in this pipeline.  The coordinate
frame bookkeeping that the specification attaches to images and
transforms (spec section 3, "Coordinate Frame") has no counterpart in
the code; it is carried here as inert metadata (`frame`, `movingFrame`,
`fixedFrame`) so that claims about frame checks are statable, and the
operations ignore it exactly as the code does.
-/

namespace Cpspflow

/-- Error taxonomy of spec section 7.  `GridMismatch` stands for the
`ValueError` the ANTsPy arithmetic operator raises on inconsistent
physical spaces; the remaining constructors are never produced by the
embedded code paths. -/
inductive PipelineError where
  | InputNotFound
  | FormatMismatch
  | RegistrationFailure
  | FrameMismatch
  | GridMismatch
  | ExternalToolFailure
deriving DecidableEq

/-- An ANTs image as the pipeline code sees it: a 3-D voxel array
(`data`, row-major over `shape`) plus the physical-space metadata
(spacing, origin, direction cosines).  `frame` is the spec's implicit
"last recorded coordinate frame" of the image; the code stores no such
attribute and never consults it. -/
structure AntsImage where
  shape : ℕ × ℕ × ℕ
  spacing : ℚ × ℚ × ℚ
  origin : ℚ × ℚ × ℚ
  direction : List (List ℚ)
  frame : String
  data : List ℚ
deriving DecidableEq

/-- Absolute tolerance used by ANTsPy's `image_physical_space_consistency`
(default `tolerance=1e-2`). -/
def spaceTol : ℚ := 1 / 100

/-- Relative tolerance of `np.allclose` (default `rtol=1e-5`), which the
library uses for the direction-matrix comparison. -/
def rtolAllclose : ℚ := 1 / 100000

/-- Componentwise closeness of two metadata triples, within `spaceTol`
(mirrors the spacing and origin checks of
`image_physical_space_consistency`). -/
def tripleClose (a b : ℚ × ℚ × ℚ) : Bool :=
  decide (|a.1 - b.1| ≤ spaceTol) &&
  decide (|a.2.1 - b.2.1| ≤ spaceTol) &&
  decide (|a.2.2 - b.2.2| ≤ spaceTol)

/-- `np.allclose(d1, d2, atol=tolerance)` on the direction matrices:
entrywise `|x - y| ≤ atol + rtol*|y|`. -/
def matClose (a b : List (List ℚ)) : Bool :=
  a.length == b.length &&
  (a.zip b).all (fun rs =>
    rs.1.length == rs.2.length &&
    (rs.1.zip rs.2).all (fun xy =>
      decide (|xy.1 - xy.2| ≤ spaceTol + rtolAllclose * |xy.2|)))

/-- ANTsPy `image_physical_space_consistency` with the default tolerance:
spacing, origin and direction agree within tolerance and the spatial
shapes are equal.  (The library's leading dimension check is trivially
true here: every `AntsImage` is 3-D.) -/
def image_physical_space_consistency (a b : AntsImage) : Bool :=
  tripleClose a.spacing b.spacing &&
  tripleClose a.origin b.origin &&
  matClose a.direction b.direction &&
  (a.shape == b.shape)

/-- ANTsPy `ANTsImage.__mul__`: check physical-space consistency (raising
`ValueError` — embedded as `GridMismatch` — on failure), then take the
elementwise product of the voxel arrays, keeping the left image's
metadata (`new_image_like`). -/
def antsImageMul (a b : AntsImage) : Except PipelineError AntsImage :=
  if image_physical_space_consistency a b then
    Except.ok { a with data := a.data.zipWith (fun x y => x * y) b.data }
  else
    Except.error PipelineError.GridMismatch

/-- `utils.apply_mask` (utils.py lines 106-108): `return image * mask`.
The function itself performs no check; any grid enforcement is the
library operator's. -/
def apply_mask (image mask : AntsImage) : Except PipelineError AntsImage :=
  antsImageMul image mask

theorem tripleClose_refl (a : ℚ × ℚ × ℚ) : tripleClose a a = true := by
  simp [tripleClose, spaceTol]

theorem mem_zip_self {α : Type} {l : List α} {p : α × α} (h : p ∈ l.zip l) :
    p.1 = p.2 := by
  induction l with
  | nil => simp at h
  | cons a t ih =>
    rcases (by simpa using h : p = (a, a) ∨ p ∈ t.zip t) with h1 | h1
    · rw [h1]
    · exact ih h1

theorem matClose_refl (d : List (List ℚ)) : matClose d d = true := by
  unfold matClose
  simp only [beq_self_eq_true, Bool.true_and, List.all_eq_true]
  intro rs hrs
  obtain ⟨r1, r2⟩ := rs
  have hz : r1 = r2 := mem_zip_self hrs
  subst hz
  simp only [beq_self_eq_true, Bool.true_and, List.all_eq_true]
  intro xy hxy
  obtain ⟨x1, x2⟩ := xy
  have hx : x1 = x2 := mem_zip_self hxy
  subst hx
  simp only [sub_self, abs_zero, decide_eq_true_eq]
  have h1 : (0:ℚ) ≤ rtolAllclose * |x1| := by unfold rtolAllclose; positivity
  have h2 : (0:ℚ) < spaceTol := by norm_num [spaceTol]
  linarith

/-- A coordinate transform as the ANTs resampler replays it: for each
voxel of the fixed (output) grid it yields the point of the moving
image's grid to sample.  The code passes transforms around as plain
file paths; their geometric content is this sampling map, expressed in
voxel-index coordinates (the affine index-to-physical conversions of
the fixed and moving grids are absorbed into `map`, which is exact for
unit spacing, zero origin and identity direction).  `movingFrame` and
`fixedFrame` carry the spec's declared frame bookkeeping for a
Transform Handle (spec section 3); the code stores no such data and
the resampler below never reads these fields. -/
structure Transform where
  movingFrame : String
  fixedFrame : String
  map : ℚ × ℚ × ℚ → ℚ × ℚ × ℚ

/-- Replaying a transform list on a sampled point.  ANTs applies the
list so that its last element acts first (function-composition order);
`foldr` realises exactly that. -/
def chainPoint (transformlist : List Transform) (p : ℚ × ℚ × ℚ) : ℚ × ℚ × ℚ :=
  transformlist.foldr (fun t q => t.map q) p

/-- Interpolator choices the pipeline passes to `ants.apply_transforms`. -/
inductive Interp where
  | linear
  | nearestNeighbor
deriving DecidableEq

/-- Voxel lookup with the resampler's out-of-bounds default value 0
(`ants.apply_transforms` default `defaultvalue=0`). -/
def AntsImage.vox (img : AntsImage) (i j k : ℤ) : ℚ :=
  let n := img.shape.1
  let m := img.shape.2.1
  let l := img.shape.2.2
  if 0 ≤ i ∧ i < (n : ℤ) ∧ 0 ≤ j ∧ j < (m : ℤ) ∧ 0 ≤ k ∧ k < (l : ℤ) then
    img.data.getD ((i.toNat * m + j.toNat) * l + k.toNat) 0
  else 0

/-- Linear interpolation between two grid samples. -/
def lerp (t a b : ℚ) : ℚ := (1 - t) * a + t * b

/-- Trilinear interpolation of a grid function at a fractional point
(ITK's linear interpolator). -/
def triInterp (g : ℤ → ℤ → ℤ → ℚ) (x y z : ℚ) : ℚ :=
  let i := Int.floor x
  let j := Int.floor y
  let k := Int.floor z
  let fx := x - (i : ℚ)
  let fy := y - (j : ℚ)
  let fz := z - (k : ℚ)
  lerp fz
    (lerp fy (lerp fx (g i j k) (g (i + 1) j k))
             (lerp fx (g i (j + 1) k) (g (i + 1) (j + 1) k)))
    (lerp fy (lerp fx (g i j (k + 1)) (g (i + 1) j (k + 1)))
             (lerp fx (g i (j + 1) (k + 1)) (g (i + 1) (j + 1) (k + 1))))

/-- Rounding used by ITK's nearest-neighbor interpolator (round half up). -/
def roundHalfUp (x : ℚ) : ℤ := Int.floor (x + 1 / 2)

/-- Value produced by the chosen interpolator at a sampled point. -/
def interpValue (interpolator : Interp) (g : ℤ → ℤ → ℤ → ℚ) (p : ℚ × ℚ × ℚ) : ℚ :=
  match interpolator with
  | Interp.nearestNeighbor => g (roundHalfUp p.1) (roundHalfUp p.2.1) (roundHalfUp p.2.2)
  | Interp.linear => triInterp g p.1 p.2.1 p.2.2

/-- `ants.apply_transforms(fixed, moving, transformlist, interpolator)`:
the output occupies exactly the fixed image's grid (shape, spacing,
origin, direction copied from `fixed`), and each output voxel holds the
interpolated value of `moving` at the point the transform chain maps
that voxel to.  No frame consistency of any kind is checked. -/
def ants_apply_transforms (fixed moving : AntsImage)
    (transformlist : List Transform) (interpolator : Interp) : AntsImage :=
  let n := fixed.shape.1
  let m := fixed.shape.2.1
  let l := fixed.shape.2.2
  { shape := fixed.shape, spacing := fixed.spacing, origin := fixed.origin,
    direction := fixed.direction, frame := fixed.frame,
    data :=
      ((List.range n).map (fun i =>
        (List.range m).map (fun j =>
          (List.range l).map (fun k =>
            interpValue interpolator moving.vox
              (chainPoint transformlist ((i : ℚ), (j : ℚ), (k : ℚ))))))).flatten.flatten }

/-- `utils.apply_transform` (utils.py lines 98-104): a direct delegation
to `ants.apply_transforms` with `fixed`, `moving` and the transform
list.  No `interpolator` argument is passed, so the library default
`linear` applies.  The result is wrapped in `Except` so that the spec's
claimed `FrameMismatch` failure is statable; the code has no error
path of its own. -/
def apply_transform (fixed moving_mask : AntsImage)
    (transform_list : List Transform) : Except PipelineError AntsImage :=
  Except.ok (ants_apply_transforms fixed moving_mask transform_list Interp.linear)

/-- `mni_registration.register_subject_to_mni`, warp loop (lines 34-42):
each named image is resampled onto the MNI template grid with the
forward transforms of the b0-to-MNI registration, choosing
`'linear' if name != "lesion" else 'nearestNeighbor'`.  The upstream
`ants.registration` call is an external solver; its output transform
list enters here as the `fwdtransforms` parameter. -/
def register_subject_to_mni (images_to_register : List (String × AntsImage))
    (mni_template : AntsImage) (fwdtransforms : List Transform) :
    List (String × AntsImage) :=
  images_to_register.map (fun p =>
    (p.1, ants_apply_transforms mni_template p.2 fwdtransforms
      (if p.1 ≠ "lesion" then Interp.linear else Interp.nearestNeighbor)))

theorem getD_zero_or_mem (l : List ℚ) (i : ℕ) :
    l.getD i 0 = 0 ∨ l.getD i 0 ∈ l := by
  induction l generalizing i with
  | nil => left; simp
  | cons a t ih =>
    cases i with
    | zero => right; simp
    | succ n =>
      rcases ih n with h | h
      · left; simpa using h
      · right; simp only [List.getD_cons_succ]; exact List.mem_cons_of_mem _ h

theorem vox_zero_or_mem (img : AntsImage) (i j k : ℤ) :
    img.vox i j k = 0 ∨ img.vox i j k ∈ img.data := by
  unfold AntsImage.vox
  dsimp only
  split
  · exact getD_zero_or_mem _ _
  · left; rfl

theorem nearest_value_zero_or_mem (moving : AntsImage) (g : ℚ × ℚ × ℚ) :
    interpValue Interp.nearestNeighbor moving.vox g = 0 ∨
    interpValue Interp.nearestNeighbor moving.vox g ∈ moving.data := by
  unfold interpValue
  exact vox_zero_or_mem _ _ _ _

/-- Every voxel of a nearest-neighbor resampled image is either the
resampler's background default 0 or one of the moving image's voxel
values: nearest-neighbor interpolation introduces no new values beyond
the background fill. -/
theorem nearest_output_values (fixed moving : AntsImage)
    (transformlist : List Transform) (v : ℚ)
    (hv : v ∈ (ants_apply_transforms fixed moving transformlist
        Interp.nearestNeighbor).data) :
    v = 0 ∨ v ∈ moving.data := by
  unfold ants_apply_transforms at hv
  dsimp only at hv
  obtain ⟨row, hrow, hvrow⟩ := List.mem_flatten.mp hv
  obtain ⟨plane, hplane, hrowp⟩ := List.mem_flatten.mp hrow
  obtain ⟨i, hi, hpe⟩ := List.mem_map.mp hplane
  subst hpe
  obtain ⟨j, hj, hre⟩ := List.mem_map.mp hrowp
  subst hre
  obtain ⟨k, hk, hve⟩ := List.mem_map.mp hvrow
  subst hve
  exact nearest_value_zero_or_mem moving _

/-- A 3-D numpy array viewed as a function of its indices. -/
abbrev Vol (n m l : ℕ) (α : Type) := Fin n → Fin m → Fin l → α

/-- `pain_mask.numpy() > 0` (utils.py line 70): elementwise binarization
by the strict test `> 0`. -/
def npGtZero {n m l : ℕ} (a : Vol n m l ℚ) : Vol n m l Bool :=
  fun i j k => decide (0 < a i j k)

/-- `np.flip(x, axis=0)` (utils.py line 73): reverse the first axis. -/
def npFlipAxisZero {n m l : ℕ} {α : Type} (a : Vol n m l α) : Vol n m l α :=
  fun i j k => a (Fin.rev i) j k

/-- `np.zeros_like` (utils.py line 76). -/
def npZerosLike (n m l : ℕ) : Vol n m l ℕ := fun _ _ _ => 0

/-- Boolean-mask assignment `arr[mask] = v` (utils.py lines 79 and 82). -/
def npMaskedFill {n m l : ℕ} (arr : Vol n m l ℕ) (mask : Vol n m l Bool)
    (v : ℕ) : Vol n m l ℕ :=
  fun i j k => if mask i j k then v else arr i j k

/-- `utils.mirror_pain_mask`, voxel-array core (utils.py lines 69-82):
binarize the loaded mask by `> 0`, flip it across axis 0, start from a
zero array, write label 1 on the original foreground, then write label
2 on the flipped foreground.  (The surrounding file load/save and the
metadata copy into `ants.from_numpy`, lines 85-95, are not part of the
claims and are not modelled.) -/
def mirror_pain_mask {n m l : ℕ} (a : Vol n m l ℚ) : Vol n m l ℕ :=
  let pain_data := npGtZero a
  let pain_data_flipped := npFlipAxisZero pain_data
  let combined0 := npZerosLike n m l
  let combined1 := npMaskedFill combined0 pain_data 1
  npMaskedFill combined1 pain_data_flipped 2

/-- `analysis.run_overlap_analysis` result record (analysis.py lines
25-31 and 43-49): lesion volume in cubic millimetres (1 mm isotropic
MNI spacing, so one voxel is one cubic millimetre), the two overlap
flags and the two overlap fractions. -/
structure OverlapResult where
  lesion_volume_mm3 : ℕ
  left_overlap : Bool
  overlap_fraction_left : ℚ
  right_overlap : Bool
  overlap_fraction_right : ℚ
deriving DecidableEq

/-- `analysis.run_overlap_analysis` (analysis.py lines 3-54): binarize
the lesion by `> 0`; if no lesion voxel exists return the zeroed record;
otherwise compute, for each side label, the count of lesion voxels whose
reference value equals that label, divide by the lesion voxel count
(float division modelled exactly over `ℚ`), and flag overlap by strict
comparison with the threshold. -/
def run_overlap_analysis (mni_lesion cpsp_mask : AntsImage)
    (overlap_threshold : ℚ) : OverlapResult :=
  let lesion_data : List Bool := mni_lesion.data.map (fun x => decide (0 < x))
  let pain_data : List ℚ := cpsp_mask.data
  let lesion_voxels : ℕ := lesion_data.count true
  if lesion_voxels = 0 then
    { lesion_volume_mm3 := 0, left_overlap := false, overlap_fraction_left := 0,
      right_overlap := false, overlap_fraction_right := 0 }
  else
    let overlap_left_voxels : ℕ :=
      (lesion_data.zip pain_data).countP (fun p => p.1 && decide (p.2 = 1))
    let overlap_fraction_left : ℚ := (overlap_left_voxels : ℚ) / (lesion_voxels : ℚ)
    let overlap_right_voxels : ℕ :=
      (lesion_data.zip pain_data).countP (fun p => p.1 && decide (p.2 = 2))
    let overlap_fraction_right : ℚ := (overlap_right_voxels : ℚ) / (lesion_voxels : ℚ)
    { lesion_volume_mm3 := lesion_voxels,
      left_overlap := decide (overlap_fraction_left > overlap_threshold),
      overlap_fraction_left := overlap_fraction_left,
      right_overlap := decide (overlap_fraction_right > overlap_threshold),
      overlap_fraction_right := overlap_fraction_right }

/-- The spec's `lesion_voxel_count = count(lesion > 0)` (spec section 4.5),
stated directly on the lesion image's voxel list. -/
def lesionVoxelCount (lesion : AntsImage) : ℕ :=
  lesion.data.countP (fun x => decide (0 < x))

/-- The spec's `count(lesion>0 AND reference==side_label)` (spec section
4.5), stated directly on the paired voxel lists. -/
def sideOverlapCount (lesion reference : AntsImage) (sideLabel : ℚ) : ℕ :=
  (lesion.data.zip reference.data).countP
    (fun p => decide (0 < p.1) && decide (p.2 = sideLabel))

/-- `utils.save_results_to_csv` (utils.py lines 233-257), with the file
system state abstracted as `none` (destination absent) or `some prior`
(destination present with the given lines): compute `write_header` from
existence, open in append mode (prior lines kept), write the header
(the result record's keys) only when `write_header`, then write the
one row of values. -/
def save_results_to_csv (result : List (String × String))
    (csv_file : Option (List (List String))) : List (List String) :=
  let write_header := csv_file.isNone
  let fieldnames := result.map Prod.fst
  let row := result.map Prod.snd
  (csv_file.getD []) ++ (if write_header then [fieldnames] else []) ++ [row]

theorem count_true_map (l : List ℚ) (f : ℚ → Bool) :
    (l.map f).count true = l.countP f := by
  induction l with
  | nil => rfl
  | cons a t ih =>
    simp only [List.map_cons, List.count_cons, List.countP_cons, ih]
    cases h : f a <;> simp [h]

theorem countP_zip_map_left (l r : List ℚ) (f : ℚ → Bool) (g : ℚ → Bool) :
    ((l.map f).zip r).countP (fun p => p.1 && g p.2) =
      (l.zip r).countP (fun p => f p.1 && g p.2) := by
  induction l generalizing r with
  | nil => rfl
  | cons a t ih =>
    cases r with
    | nil => rfl
    | cons b s =>
      simp only [List.map_cons, List.zip_cons_cons, List.countP_cons, ih]

theorem countP_bool_disjoint {α : Type} (c d1 d2 : α → Bool)
    (hdis : ∀ x, d1 x = true → d2 x = false) (l : List α) :
    l.countP (fun x => c x && d1 x) + l.countP (fun x => c x && d2 x) ≤
      l.countP c := by
  induction l with
  | nil => simp
  | cons x t ih =>
    simp only [List.countP_cons]
    have hd := hdis x
    cases h1 : d1 x with
    | true =>
      have h2 : d2 x = false := hd h1
      cases hc : c x <;> simp [hc, h1, h2] <;> omega
    | false =>
      cases hc : c x <;> cases h2 : d2 x <;> simp [hc, h1, h2] <;> omega

theorem countP_zip_fst_le (l r : List ℚ) (f : ℚ → Bool) :
    (l.zip r).countP (fun p => f p.1) ≤ l.countP f := by
  induction l generalizing r with
  | nil => simp
  | cons a t ih =>
    cases r with
    | nil => simp
    | cons b s =>
      simp only [List.zip_cons_cons, List.countP_cons]
      have h := ih s
      cases hf : f a <;> simp [hf] <;> omega

theorem countP_zip_pair_le (l r : List ℚ) :
    (l.zip r).countP (fun p => decide (0 < p.1) && decide (p.2 = 1)) +
      (l.zip r).countP (fun p => decide (0 < p.1) && decide (p.2 = 2)) ≤
      l.countP (fun x => decide (0 < x)) := by
  have h1 := countP_bool_disjoint (fun p : ℚ × ℚ => decide (0 < p.1))
    (fun p => decide (p.2 = 1)) (fun p => decide (p.2 = 2))
    (by
      intro x hx
      have hx1 : x.2 = 1 := of_decide_eq_true hx
      simp [hx1]) (l.zip r)
  have h2 := countP_zip_fst_le l r (fun x => decide (0 < x))
  exact le_trans h1 h2

theorem mirror_value {n m l : ℕ} (a : Vol n m l ℚ) (i : Fin n) (j : Fin m)
    (k : Fin l) :
    mirror_pain_mask a i j k =
      if 0 < a (Fin.rev i) j k then 2 else if 0 < a i j k then 1 else 0 := by
  unfold mirror_pain_mask npMaskedFill npFlipAxisZero npGtZero npZerosLike
  by_cases h1 : 0 < a (Fin.rev i) j k <;> by_cases h2 : 0 < a i j k <;>
    simp [h1, h2]

/-- C5: `mirror_pain_mask` reflects the voxel array across axis 0 and
encodes the original mask as label 1, the reflected mask as label 2 and
background as 0; wherever original and reflected foregrounds overlap
the later write wins, so the voxel ends up with label 2. -/
theorem c5_mirror_encoding {n m l : ℕ} (a : Vol n m l ℚ) (i : Fin n)
    (j : Fin m) (k : Fin l) :
    mirror_pain_mask a i j k =
      if 0 < a (Fin.rev i) j k then 2 else if 0 < a i j k then 1 else 0 :=
  mirror_value a i j k

/-- A 1-voxel mask that is trivially bilaterally symmetric and entirely
foreground. -/
def symInput : Vol 1 1 1 ℚ := fun _ _ _ => 1

/-- C4, counterexample: on a bilaterally symmetric input the original
foreground voxel does NOT keep label 1 — the mirrored write overwrites
it with label 2 (the flipped foreground coincides with the original
everywhere on a symmetric input). -/
theorem c4_counterexample :
    symInput (Fin.rev 0) 0 0 = symInput 0 0 0 ∧
    0 < symInput 0 0 0 ∧
    mirror_pain_mask symInput 0 0 0 = 2 ∧
    decide (mirror_pain_mask symInput 0 0 0 = 1) = false := by decide

/-- C4, amended: for a bilaterally symmetric input every foreground
voxel of the original ends with label 2, because the mirrored region
coincides with the original and its write (label 2) comes last. -/
theorem c4_amended {n m l : ℕ} (a : Vol n m l ℚ)
    (hsym : ∀ i j k, a (Fin.rev i) j k = a i j k)
    (i : Fin n) (j : Fin m) (k : Fin l) (hpos : 0 < a i j k) :
    mirror_pain_mask a i j k = 2 := by
  rw [mirror_value, hsym]
  rw [if_pos hpos]

/-- A symmetric all-foreground input used to witness `c4_amended`. -/
def symWitnessInput : Vol 1 1 1 ℚ := fun _ _ _ => 5

theorem c4_amended_witness :
    (∀ i j k, symWitnessInput (Fin.rev i) j k = symWitnessInput i j k) ∧
    0 < symWitnessInput 0 0 0 ∧
    mirror_pain_mask symWitnessInput 0 0 0 = 2 :=
  ⟨by decide, by decide, c4_amended symWitnessInput (by decide) 0 0 0 (by decide)⟩

/-- A 1-voxel input whose value is nonzero but negative. -/
def negInput : Vol 1 1 1 ℚ := fun _ _ _ => -1

/-- C10, counterexample: the input voxel value -1 is nonzero, yet it is
NOT treated as foreground — the binarization test is `> 0`, so the
combined output voxel is background 0. -/
theorem c10_counterexample :
    decide (negInput 0 0 0 = 0) = false ∧
    mirror_pain_mask negInput 0 0 0 = 0 := by decide

/-- C10, amended: `mirror_pain_mask` binarizes its input by the test
`> 0` before mirroring, so the combined output holds only values 0, 1
and 2, and any strictly positive input voxel value is treated as
foreground (nonpositive values, including negative ones, are
background). -/
theorem c10_amended {n m l : ℕ} (a : Vol n m l ℚ) (i : Fin n) (j : Fin m)
    (k : Fin l) (hpos : 0 < a i j k) :
    (∀ i2 j2 k2, mirror_pain_mask a i2 j2 k2 = 0 ∨
      mirror_pain_mask a i2 j2 k2 = 1 ∨ mirror_pain_mask a i2 j2 k2 = 2) ∧
    mirror_pain_mask a i j k ≠ 0 := by
  constructor
  · intro i2 j2 k2
    rw [mirror_value]
    by_cases h1 : 0 < a (Fin.rev i2) j2 k2 <;>
      by_cases h2 : 0 < a i2 j2 k2 <;> simp [h1, h2]
  · rw [mirror_value]
    by_cases h1 : 0 < a (Fin.rev i) j k <;> simp [h1, hpos]

/-- A 1-voxel strictly positive input used to witness `c10_amended`. -/
def posWitnessInput : Vol 1 1 1 ℚ := fun _ _ _ => 3

theorem c10_amended_witness :
    0 < posWitnessInput 0 0 0 ∧
    ((∀ i2 j2 k2, mirror_pain_mask posWitnessInput i2 j2 k2 = 0 ∨
        mirror_pain_mask posWitnessInput i2 j2 k2 = 1 ∨
        mirror_pain_mask posWitnessInput i2 j2 k2 = 2) ∧
      mirror_pain_mask posWitnessInput 0 0 0 ≠ 0) :=
  ⟨by decide, c10_amended posWitnessInput 0 0 0 (by decide)⟩

theorem run_overlap_eq (mni_lesion cpsp_mask : AntsImage) (thr : ℚ)
    (h : lesionVoxelCount mni_lesion ≠ 0) :
    run_overlap_analysis mni_lesion cpsp_mask thr =
      { lesion_volume_mm3 := lesionVoxelCount mni_lesion,
        left_overlap := decide (thr <
          (sideOverlapCount mni_lesion cpsp_mask 1 : ℚ) /
            (lesionVoxelCount mni_lesion : ℚ)),
        overlap_fraction_left :=
          (sideOverlapCount mni_lesion cpsp_mask 1 : ℚ) /
            (lesionVoxelCount mni_lesion : ℚ),
        right_overlap := decide (thr <
          (sideOverlapCount mni_lesion cpsp_mask 2 : ℚ) /
            (lesionVoxelCount mni_lesion : ℚ)),
        overlap_fraction_right :=
          (sideOverlapCount mni_lesion cpsp_mask 2 : ℚ) /
            (lesionVoxelCount mni_lesion : ℚ) } := by
  unfold lesionVoxelCount at h
  unfold run_overlap_analysis lesionVoxelCount sideOverlapCount
  dsimp only
  rw [count_true_map]
  rw [if_neg h]
  rw [countP_zip_map_left mni_lesion.data cpsp_mask.data _ (fun q => decide (q = 1)),
      countP_zip_map_left mni_lesion.data cpsp_mask.data _ (fun q => decide (q = 2))]

/-- Bundled statement of claim C6: with at least one lesion voxel, each
overlap fraction is the side-overlap count divided by the lesion voxel
count, each flag holds exactly when its fraction strictly exceeds the
threshold, and a fraction exactly equal to the threshold yields a false
flag. -/
def OverlapThresholdSpec (mni_lesion cpsp_mask : AntsImage) (thr : ℚ) : Prop :=
  (run_overlap_analysis mni_lesion cpsp_mask thr).overlap_fraction_left =
      (sideOverlapCount mni_lesion cpsp_mask 1 : ℚ) /
        (lesionVoxelCount mni_lesion : ℚ) ∧
  (run_overlap_analysis mni_lesion cpsp_mask thr).overlap_fraction_right =
      (sideOverlapCount mni_lesion cpsp_mask 2 : ℚ) /
        (lesionVoxelCount mni_lesion : ℚ) ∧
  ((run_overlap_analysis mni_lesion cpsp_mask thr).left_overlap = true ↔
    thr < (run_overlap_analysis mni_lesion cpsp_mask thr).overlap_fraction_left) ∧
  ((run_overlap_analysis mni_lesion cpsp_mask thr).right_overlap = true ↔
    thr < (run_overlap_analysis mni_lesion cpsp_mask thr).overlap_fraction_right) ∧
  ((run_overlap_analysis mni_lesion cpsp_mask thr).overlap_fraction_left = thr →
    (run_overlap_analysis mni_lesion cpsp_mask thr).left_overlap = false) ∧
  ((run_overlap_analysis mni_lesion cpsp_mask thr).overlap_fraction_right = thr →
    (run_overlap_analysis mni_lesion cpsp_mask thr).right_overlap = false)

/-- C6: for a lesion with at least one positive voxel, the analyzer
computes `fraction_side = count(lesion>0 AND reference==side) / count(lesion>0)`
for sides 1 and 2, sets each flag iff its fraction strictly exceeds the
threshold, and a fraction exactly at the threshold gives a false flag. -/
theorem c6_overlap_threshold_strict (mni_lesion cpsp_mask : AntsImage)
    (thr : ℚ) (h : 0 < lesionVoxelCount mni_lesion) :
    OverlapThresholdSpec mni_lesion cpsp_mask thr := by
  have hne : lesionVoxelCount mni_lesion ≠ 0 := Nat.pos_iff_ne_zero.mp h
  unfold OverlapThresholdSpec
  rw [run_overlap_eq mni_lesion cpsp_mask thr hne]
  dsimp only
  refine ⟨rfl, rfl, by simp, by simp, ?_, ?_⟩
  · intro heq
    rw [heq]
    simp
  · intro heq
    rw [heq]
    simp

/-- One-voxel lesion and reference used to witness `c6_overlap_threshold_strict`. -/
def lesionOneVoxel : AntsImage :=
  { shape := (1, 1, 1), spacing := (1, 1, 1), origin := (0, 0, 0),
    direction := [[1, 0, 0], [0, 1, 0], [0, 0, 1]], frame := "MNI",
    data := [1] }

/-- One-voxel left-labelled reference mask used to witness
`c6_overlap_threshold_strict`. -/
def referenceOneVoxel : AntsImage :=
  { shape := (1, 1, 1), spacing := (1, 1, 1), origin := (0, 0, 0),
    direction := [[1, 0, 0], [0, 1, 0], [0, 0, 1]], frame := "MNI",
    data := [1] }

theorem c6_overlap_threshold_strict_witness :
    0 < lesionVoxelCount lesionOneVoxel ∧
    OverlapThresholdSpec lesionOneVoxel referenceOneVoxel (1 / 2) :=
  ⟨by decide,
   c6_overlap_threshold_strict lesionOneVoxel referenceOneVoxel (1 / 2) (by decide)⟩

/-- C7: on a lesion with no strictly positive voxel the analyzer returns
the zeroed record — volume 0, both flags false, both fractions 0 — for
every reference mask and every threshold, as a normal result. -/
theorem c7_degenerate_lesion (mni_lesion cpsp_mask : AntsImage) (thr : ℚ)
    (h : lesionVoxelCount mni_lesion = 0) :
    run_overlap_analysis mni_lesion cpsp_mask thr =
      { lesion_volume_mm3 := 0, left_overlap := false,
        overlap_fraction_left := 0, right_overlap := false,
        overlap_fraction_right := 0 } := by
  unfold lesionVoxelCount at h
  unfold run_overlap_analysis
  dsimp only
  rw [count_true_map]
  rw [if_pos h]

/-- An all-nonpositive lesion image used to witness `c7_degenerate_lesion`. -/
def emptyLesion : AntsImage :=
  { shape := (1, 2, 1), spacing := (1, 1, 1), origin := (0, 0, 0),
    direction := [[1, 0, 0], [0, 1, 0], [0, 0, 1]], frame := "MNI",
    data := [0, -3] }

/-- A nonempty reference mask used to witness `c7_degenerate_lesion`. -/
def fullReference : AntsImage :=
  { shape := (1, 2, 1), spacing := (1, 1, 1), origin := (0, 0, 0),
    direction := [[1, 0, 0], [0, 1, 0], [0, 0, 1]], frame := "MNI",
    data := [1, 2] }

theorem c7_degenerate_lesion_witness :
    lesionVoxelCount emptyLesion = 0 ∧
    run_overlap_analysis emptyLesion fullReference (1 / 100) =
      { lesion_volume_mm3 := 0, left_overlap := false,
        overlap_fraction_left := 0, right_overlap := false,
        overlap_fraction_right := 0 } :=
  ⟨by decide, c7_degenerate_lesion emptyLesion fullReference (1 / 100) (by decide)⟩

/-- C9: for a lesion with at least one positive voxel both overlap
fractions lie in the unit interval and their sum is at most 1, because
the voxel sets where the reference equals 1 and equals 2 are disjoint. -/
theorem c9_fraction_bounds (mni_lesion cpsp_mask : AntsImage) (thr : ℚ)
    (h : 0 < lesionVoxelCount mni_lesion) :
    0 ≤ (run_overlap_analysis mni_lesion cpsp_mask thr).overlap_fraction_left ∧
    (run_overlap_analysis mni_lesion cpsp_mask thr).overlap_fraction_left ≤ 1 ∧
    0 ≤ (run_overlap_analysis mni_lesion cpsp_mask thr).overlap_fraction_right ∧
    (run_overlap_analysis mni_lesion cpsp_mask thr).overlap_fraction_right ≤ 1 ∧
    (run_overlap_analysis mni_lesion cpsp_mask thr).overlap_fraction_left +
        (run_overlap_analysis mni_lesion cpsp_mask thr).overlap_fraction_right ≤ 1 := by
  have hne : lesionVoxelCount mni_lesion ≠ 0 := Nat.pos_iff_ne_zero.mp h
  rw [run_overlap_eq mni_lesion cpsp_mask thr hne]
  dsimp only
  have hsum : sideOverlapCount mni_lesion cpsp_mask 1 +
      sideOverlapCount mni_lesion cpsp_mask 2 ≤ lesionVoxelCount mni_lesion := by
    unfold sideOverlapCount lesionVoxelCount
    exact countP_zip_pair_le mni_lesion.data cpsp_mask.data
  have hL : sideOverlapCount mni_lesion cpsp_mask 1 ≤ lesionVoxelCount mni_lesion :=
    le_trans (Nat.le_add_right _ _) hsum
  have hR : sideOverlapCount mni_lesion cpsp_mask 2 ≤ lesionVoxelCount mni_lesion :=
    le_trans (Nat.le_add_left _ _) hsum
  have hposQ : (0 : ℚ) < (lesionVoxelCount mni_lesion : ℚ) := by
    exact_mod_cast h
  refine ⟨?_, ?_, ?_, ?_, ?_⟩
  · exact div_nonneg (by positivity) (le_of_lt hposQ)
  · rw [div_le_one hposQ]
    exact_mod_cast hL
  · exact div_nonneg (by positivity) (le_of_lt hposQ)
  · rw [div_le_one hposQ]
    exact_mod_cast hR
  · rw [div_add_div_same, div_le_one hposQ]
    exact_mod_cast hsum

/-- A two-voxel lesion overlapping both reference sides, used to witness
`c9_fraction_bounds`. -/
def lesionTwoVoxel : AntsImage :=
  { shape := (2, 1, 1), spacing := (1, 1, 1), origin := (0, 0, 0),
    direction := [[1, 0, 0], [0, 1, 0], [0, 0, 1]], frame := "MNI",
    data := [1, 1] }

/-- A two-voxel bilateral reference mask used to witness
`c9_fraction_bounds`. -/
def referenceTwoVoxel : AntsImage :=
  { shape := (2, 1, 1), spacing := (1, 1, 1), origin := (0, 0, 0),
    direction := [[1, 0, 0], [0, 1, 0], [0, 0, 1]], frame := "MNI",
    data := [1, 2] }

theorem c9_fraction_bounds_witness :
    0 < lesionVoxelCount lesionTwoVoxel ∧
    (0 ≤ (run_overlap_analysis lesionTwoVoxel referenceTwoVoxel (1 / 2)).overlap_fraction_left ∧
     (run_overlap_analysis lesionTwoVoxel referenceTwoVoxel (1 / 2)).overlap_fraction_left ≤ 1 ∧
     0 ≤ (run_overlap_analysis lesionTwoVoxel referenceTwoVoxel (1 / 2)).overlap_fraction_right ∧
     (run_overlap_analysis lesionTwoVoxel referenceTwoVoxel (1 / 2)).overlap_fraction_right ≤ 1 ∧
     (run_overlap_analysis lesionTwoVoxel referenceTwoVoxel (1 / 2)).overlap_fraction_left +
       (run_overlap_analysis lesionTwoVoxel referenceTwoVoxel (1 / 2)).overlap_fraction_right ≤ 1) :=
  ⟨by decide, c9_fraction_bounds lesionTwoVoxel referenceTwoVoxel (1 / 2) (by decide)⟩

/-- C8: persisting a result appends exactly one row of the record's
values; a header row (the record's keys) is written first exactly when
the destination does not yet exist, and an existing destination's prior
rows are left unchanged in front of the new row. -/
theorem c8_save_results_append (result : List (String × String))
    (prior : List (List String)) :
    save_results_to_csv result (some prior) =
      prior ++ [result.map Prod.snd] ∧
    save_results_to_csv result none =
      [result.map Prod.fst, result.map Prod.snd] := by
  constructor <;> simp [save_results_to_csv]

deriving instance DecidableEq for Except

/-- C1, amended: `apply_transform` performs no frame-consistency check of
any kind — for every transform chain, whether or not its declared
moving frame matches the source image's frame, it returns (ok) the
warped image computed by the library resampler with the default linear
interpolator, and in particular never fails with `FrameMismatch`. -/
theorem c1_no_frame_check (fixed moving_mask : AntsImage)
    (transform_list : List Transform) :
    apply_transform fixed moving_mask transform_list =
      Except.ok (ants_apply_transforms fixed moving_mask transform_list
        Interp.linear) :=
  rfl

/-- An identity transform whose declared moving frame is a FLAIR-space
frame. -/
def flairFrameTransform : Transform :=
  { movingFrame := "flair", fixedFrame := "MNI", map := fun p => p }

/-- A one-voxel source image whose last recorded frame is the b1000
subject frame, deliberately different from `flairFrameTransform`'s
declared moving frame. -/
def b1000FrameImage : AntsImage :=
  { shape := (1, 1, 1), spacing := (1, 1, 1), origin := (0, 0, 0),
    direction := [[1, 0, 0], [0, 1, 0], [0, 0, 1]], frame := "dwi b1000",
    data := [7] }

/-- A one-voxel MNI-frame target grid. -/
def mniGridImage : AntsImage :=
  { shape := (1, 1, 1), spacing := (1, 1, 1), origin := (0, 0, 0),
    direction := [[1, 0, 0], [0, 1, 0], [0, 0, 1]], frame := "MNI",
    data := [0] }

/-- The image `apply_transform` actually returns in the mismatched call
of `c1_counterexample`: the source voxel warped onto the target grid. -/
def warpedDespiteMismatch : AntsImage :=
  { shape := (1, 1, 1), spacing := (1, 1, 1), origin := (0, 0, 0),
    direction := [[1, 0, 0], [0, 1, 0], [0, 0, 1]], frame := "MNI",
    data := [7] }

set_option maxRecDepth 4000 in
/-- C1, counterexample: the transform chain's declared moving frame
("flair") differs from the source image's last recorded frame
("dwi b1000"), yet `apply_transform` succeeds and returns a warped
image instead of failing with `FrameMismatch`. -/
theorem c1_counterexample :
    decide (flairFrameTransform.movingFrame = b1000FrameImage.frame) = false ∧
    apply_transform mniGridImage b1000FrameImage [flairFrameTransform] =
      Except.ok warpedDespiteMismatch := by
  refine ⟨by decide, ?_⟩
  simp only [apply_transform, ants_apply_transforms, chainPoint, interpValue,
    triInterp, lerp, AntsImage.vox, mniGridImage, b1000FrameImage,
    flairFrameTransform, warpedDespiteMismatch, List.foldr, Except.ok.injEq,
    AntsImage.mk.injEq, List.range_succ, List.range_zero]
  norm_num

/-- C2, amended: in the MNI warp loop the lesion is resampled with
nearest-neighbor interpolation, so every voxel of the warped lesion is
either the resampler's background default 0 or one of the input
lesion's voxel values; every other (intensity) image of the loop is
resampled linearly; and `apply_transform` passes no interpolator, so
the brain masks it warps get the library default linear interpolation
(which can produce values outside the input's label set, see
`c2_counterexample`). -/
theorem c2_interpolation_policy (mni_template img : AntsImage)
    (fwdtransforms : List Transform)
    (images_to_register : List (String × AntsImage))
    (hmem : ("lesion", img) ∈ images_to_register) :
    ("lesion", ants_apply_transforms mni_template img fwdtransforms
        Interp.nearestNeighbor) ∈
      register_subject_to_mni images_to_register mni_template fwdtransforms ∧
    (∀ v ∈ (ants_apply_transforms mni_template img fwdtransforms
        Interp.nearestNeighbor).data, v = 0 ∨ v ∈ img.data) ∧
    (∀ name img2, (name, img2) ∈ images_to_register → name ≠ "lesion" →
      (name, ants_apply_transforms mni_template img2 fwdtransforms
          Interp.linear) ∈
        register_subject_to_mni images_to_register mni_template fwdtransforms) ∧
    apply_transform mni_template img fwdtransforms =
      Except.ok (ants_apply_transforms mni_template img fwdtransforms
        Interp.linear) := by
  refine ⟨?_, ?_, ?_, rfl⟩
  · have hmap := List.mem_map_of_mem
      (fun p : String × AntsImage =>
        (p.1, ants_apply_transforms mni_template p.2 fwdtransforms
          (if p.1 ≠ "lesion" then Interp.linear else Interp.nearestNeighbor)))
      hmem
    simpa [register_subject_to_mni] using hmap
  · intro v hv
    exact nearest_output_values mni_template img fwdtransforms v hv
  · intro name img2 hmem2 hname
    have hmap := List.mem_map_of_mem
      (fun p : String × AntsImage =>
        (p.1, ants_apply_transforms mni_template p.2 fwdtransforms
          (if p.1 ≠ "lesion" then Interp.linear else Interp.nearestNeighbor)))
      hmem2
    simpa [register_subject_to_mni, hname] using hmap

/-- A one-voxel lesion mask used to witness `c2_interpolation_policy`. -/
def lesionMaskOne : AntsImage :=
  { shape := (1, 1, 1), spacing := (1, 1, 1), origin := (0, 0, 0),
    direction := [[1, 0, 0], [0, 1, 0], [0, 0, 1]], frame := "dwi b1000",
    data := [1] }

theorem c2_interpolation_policy_witness :
    ("lesion", lesionMaskOne) ∈ [("lesion", lesionMaskOne)] ∧
    (("lesion", ants_apply_transforms mniGridImage lesionMaskOne []
        Interp.nearestNeighbor) ∈
      register_subject_to_mni [("lesion", lesionMaskOne)] mniGridImage [] ∧
    (∀ v ∈ (ants_apply_transforms mniGridImage lesionMaskOne []
        Interp.nearestNeighbor).data, v = 0 ∨ v ∈ lesionMaskOne.data) ∧
    (∀ name img2, (name, img2) ∈ [("lesion", lesionMaskOne)] →
      name ≠ "lesion" →
      (name, ants_apply_transforms mniGridImage img2 []
          Interp.linear) ∈
        register_subject_to_mni [("lesion", lesionMaskOne)] mniGridImage []) ∧
    apply_transform mniGridImage lesionMaskOne [] =
      Except.ok (ants_apply_transforms mniGridImage lesionMaskOne []
        Interp.linear)) :=
  ⟨by decide,
   c2_interpolation_policy mniGridImage lesionMaskOne [] _ (by decide)⟩

/-- A transform shifting the sampling point half a voxel along axis 0,
with matching declared frames. -/
def halfVoxelShift : Transform :=
  { movingFrame := "dwi b1000", fixedFrame := "dwi b1000",
    map := fun p => (p.1 + 1 / 2, p.2.1, p.2.2) }

/-- A two-voxel binary brain mask with label set contained in 0 and 1. -/
def binaryBrainMask : AntsImage :=
  { shape := (2, 1, 1), spacing := (1, 1, 1), origin := (0, 0, 0),
    direction := [[1, 0, 0], [0, 1, 0], [0, 0, 1]], frame := "dwi b1000",
    data := [0, 1] }

/-- The two-voxel target grid of the half-voxel-shift warp. -/
def twoVoxelGrid : AntsImage :=
  { shape := (2, 1, 1), spacing := (1, 1, 1), origin := (0, 0, 0),
    direction := [[1, 0, 0], [0, 1, 0], [0, 0, 1]], frame := "dwi b1000",
    data := [0, 0] }

/-- What `apply_transform` actually produces for `binaryBrainMask` under
the half-voxel shift: linearly interpolated values. -/
def linearWarpedMask : AntsImage :=
  { shape := (2, 1, 1), spacing := (1, 1, 1), origin := (0, 0, 0),
    direction := [[1, 0, 0], [0, 1, 0], [0, 0, 1]], frame := "dwi b1000",
    data := [1 / 2, 1 / 2] }

set_option maxRecDepth 4000 in
/-- C2, counterexample: warping a binary brain mask through
`apply_transform` (which passes no interpolator, so the library default
linear interpolation applies) produces the voxel value 1/2, which is
not in the mask's original label set — nearest-neighbor interpolation
is NOT used for brain masks. -/
theorem c2_counterexample :
    apply_transform twoVoxelGrid binaryBrainMask [halfVoxelShift] =
      Except.ok linearWarpedMask ∧
    linearWarpedMask.data = [1 / 2, 1 / 2] ∧
    binaryBrainMask.data = [0, 1] ∧
    ((1 / 2 : ℚ) ∈ binaryBrainMask.data) = False := by
  refine ⟨?_, rfl, rfl, eq_false (by norm_num [binaryBrainMask])⟩
  simp only [apply_transform, ants_apply_transforms, chainPoint, interpValue,
    triInterp, lerp, AntsImage.vox, twoVoxelGrid, binaryBrainMask,
    halfVoxelShift, linearWarpedMask, List.foldr, Except.ok.injEq,
    AntsImage.mk.injEq, List.range_succ, List.range_zero]
  norm_num
  rw [Int.fract]
  norm_num

/-- An image on the unit grid. -/
def gridImageA : AntsImage :=
  { shape := (1, 1, 1), spacing := (1, 1, 1), origin := (0, 0, 0),
    direction := [[1, 0, 0], [0, 1, 0], [0, 0, 1]], frame := "subject",
    data := [2] }

/-- A mask whose third spacing component differs from `gridImageA`'s by
1/200 — a genuine spacing difference, but below the library's 0.01
consistency tolerance. -/
def gridImageB : AntsImage :=
  { shape := (1, 1, 1), spacing := (1, 1, 201 / 200), origin := (0, 0, 0),
    direction := [[1, 0, 0], [0, 1, 0], [0, 0, 1]], frame := "subject",
    data := [3] }

/-- The product image `apply_mask` returns for `gridImageA` and
`gridImageB` despite their differing spacing. -/
def maskedProductAB : AntsImage :=
  { shape := (1, 1, 1), spacing := (1, 1, 1), origin := (0, 0, 0),
    direction := [[1, 0, 0], [0, 1, 0], [0, 0, 1]], frame := "subject",
    data := [6] }

/-- C3, counterexample: the voxel grids of image and mask differ in
spacing (1 versus 201/200 along the third axis), yet `apply_mask` does
not fail with `GridMismatch` — the sub-tolerance difference passes the
library's consistency check and the elementwise product is returned. -/
theorem c3_counterexample :
    gridImageA.spacing.2.2 ≠ gridImageB.spacing.2.2 ∧
    apply_mask gridImageA gridImageB = Except.ok maskedProductAB := by
  constructor
  · simp only [gridImageA, gridImageB]
    norm_num
  · simp only [apply_mask, antsImageMul, image_physical_space_consistency,
      tripleClose, matClose, spaceTol, rtolAllclose, gridImageA, gridImageB,
      maskedProductAB, List.zip_cons_cons, List.all_cons, List.all_nil,
      List.zipWith_cons_cons, List.zipWith_nil_right, Except.ok.injEq,
      AntsImage.mk.injEq]
    norm_num
    intro h
    rw [show |(1:ℚ)/200| = 1/200 from abs_of_pos (by norm_num)] at h
    norm_num at h

/-- C3, amended: `apply_mask` performs no grid check of its own; the
library product it delegates to enforces physical-space consistency
only up to tolerance (0.01 absolute on spacing, origin and direction),
so grids that agree within tolerance — identical grids included — give
the elementwise product, while a shape difference (an exact check)
gives the library's mismatch error. -/
theorem c3_grid_tolerance (image mask : AntsImage)
    (h : (image.spacing = mask.spacing ∧ image.origin = mask.origin ∧
          image.direction = mask.direction) ∨ image.shape ≠ mask.shape) :
    apply_mask image mask =
      if image.shape = mask.shape then
        Except.ok { image with
          data := image.data.zipWith (fun x y => x * y) mask.data }
      else Except.error PipelineError.GridMismatch := by
  unfold apply_mask antsImageMul image_physical_space_consistency
  rcases h with ⟨h1, h2, h3⟩ | h4
  · rw [h1, h2, h3, tripleClose_refl, tripleClose_refl, matClose_refl]
    by_cases hs : image.shape = mask.shape
    · simp [hs]
    · simp [hs]
  · have hb : (image.shape == mask.shape) = false := by simp [h4]
    simp [hb, h4]

/-- An intensity image used to witness `c3_grid_tolerance`. -/
def gridImageC : AntsImage :=
  { shape := (1, 1, 1), spacing := (1, 1, 1), origin := (0, 0, 0),
    direction := [[1, 0, 0], [0, 1, 0], [0, 0, 1]], frame := "subject",
    data := [2] }

/-- A mask on the identical grid, used to witness `c3_grid_tolerance`. -/
def gridImageD : AntsImage :=
  { shape := (1, 1, 1), spacing := (1, 1, 1), origin := (0, 0, 0),
    direction := [[1, 0, 0], [0, 1, 0], [0, 0, 1]], frame := "subject",
    data := [5] }

theorem c3_grid_tolerance_witness :
    ((gridImageC.spacing = gridImageD.spacing ∧
      gridImageC.origin = gridImageD.origin ∧
      gridImageC.direction = gridImageD.direction) ∨
      gridImageC.shape ≠ gridImageD.shape) ∧
    apply_mask gridImageC gridImageD =
      (if gridImageC.shape = gridImageD.shape then
        Except.ok { gridImageC with
          data := gridImageC.data.zipWith (fun x y => x * y) gridImageD.data }
      else Except.error PipelineError.GridMismatch) :=
  ⟨Or.inl ⟨rfl, rfl, rfl⟩,
   c3_grid_tolerance gridImageC gridImageD (Or.inl ⟨rfl, rfl, rfl⟩)⟩

end Cpspflow
